import Mathlib

/-!
Shallow embedding of the feature-flags API route
(`src/app/api/feature-flags/route.ts`) of the Kinde Next.js starter kit.

JavaScript objects whose keys are flag codes are modelled as association
lists `List (String × α)` with first-match lookup (`jsGet`), matching
property access on an object with unique keys; an absent property is
`none` (JS `undefined`).  Effectful steps (token POST, the two upstream
GETs) are passed in as oracle arguments: an `Except String _` whose
`.error` constructor is a thrown exception carrying its message.
-/

namespace FeatureFlags

/-- A feature-flag value as delivered by the upstream API:
`string | boolean | number` (numbers in this API are integral). -/
inductive FlagValue where
  | str (s : String)
  | boolean (b : Bool)
  | num (n : Int)
deriving DecidableEq, Repr

/-- A flat flag map, i.e. the JS object `Record<string, FlagValue>`. -/
abbrev FlagMap := List (String × FlagValue)

/-- JS property lookup `m[k]` on an object: first entry with the key,
`none` when the property is absent (`undefined`). -/
def jsGet {α : Type} : List (String × α) → String → Option α
  | [], _ => none
  | (k2, v) :: rest, k => if k2 = k then some v else jsGet rest k

/-- `Object.keys`. -/
def keysOf {α : Type} (m : List (String × α)) : List String :=
  m.map Prod.fst

/-- JS template-literal rendering of a flag value, i.e. how a value is
turned into text inside a template string. -/
def FlagValue.render : FlagValue → String
  | .str s => s
  | .boolean b => cond b "true" "false"
  | .num n => toString n

/-- `computeOverrides` from the route: iterates the keys of `envFlags`
and records, per key, the strict inequality `envFlags[key] !== orgFlags[key]`
(an absent organization value is `undefined`, hence `none`). -/
def computeOverrides (envFlags orgFlags : FlagMap) : List (String × Bool) :=
  (keysOf envFlags).map
    (fun key => (key, decide (jsGet envFlags key ≠ jsGet orgFlags key)))

theorem jsGet_map_pair {g : String → Bool} (l : List String) (k : String) :
    jsGet (l.map (fun key => (key, g key))) k =
      if k ∈ l then some (g k) else none := by
  induction l with
  | nil => simp [jsGet]
  | cons a t ih =>
    by_cases h : a = k
    · subst h
      simp [jsGet]
    · simp only [List.map_cons, jsGet, if_neg h, ih, List.mem_cons]
      have : ¬k = a := fun hk => h hk.symm
      simp [this]

theorem jsGet_isSome_mem {α : Type} (m : List (String × α)) (k : String)
    (v : α) (h : jsGet m k = some v) : k ∈ keysOf m := by
  induction m with
  | nil => simp [jsGet] at h
  | cons p t ih =>
    by_cases hk : p.1 = k
    · simp [keysOf, hk]
    · simp only [keysOf, List.map_cons, List.mem_cons]
      right
      have h2 : jsGet t k = some v := by
        obtain ⟨k2, v2⟩ := p
        simpa [jsGet, hk] using h
      exact ih h2

/-- C1: for every key `k` present in `envFlags` (with value `v`), the
override map holds at `k` exactly the strict inequality between the
environment value and the (possibly absent) organization value; in
particular, a key present in env and absent in org is reported `true`. -/
theorem computeOverrides_at_key (E O : FlagMap) (k : String) (v : FlagValue)
    (h : jsGet E k = some v) :
    jsGet (computeOverrides E O) k = some (decide (some v ≠ jsGet O k)) ∧
    (jsGet O k = none → jsGet (computeOverrides E O) k = some true) := by
  have hmem : k ∈ keysOf E := jsGet_isSome_mem E k v h
  have hval : jsGet (computeOverrides E O) k =
      some (decide (jsGet E k ≠ jsGet O k)) := by
    unfold computeOverrides
    rw [jsGet_map_pair (keysOf E) k, if_pos hmem]
  constructor
  · rw [hval, h]
  · intro hO
    rw [hval, h, hO]
    simp

theorem computeOverrides_at_key_witness :
    jsGet [("dark_mode", FlagValue.boolean true)] "dark_mode" =
        some (FlagValue.boolean true) ∧
    jsGet (computeOverrides [("dark_mode", FlagValue.boolean true)] [])
        "dark_mode" =
      some (decide (some (FlagValue.boolean true) ≠
        jsGet ([] : FlagMap) "dark_mode")) ∧
    jsGet (computeOverrides [("dark_mode", FlagValue.boolean true)] [])
        "dark_mode" = some true := by
  refine ⟨by decide, ?_, ?_⟩
  · exact (computeOverrides_at_key [("dark_mode", FlagValue.boolean true)] []
      "dark_mode" (FlagValue.boolean true) (by decide)).1
  · exact (computeOverrides_at_key [("dark_mode", FlagValue.boolean true)] []
      "dark_mode" (FlagValue.boolean true) (by decide)).2 (by decide)

/-- C2: the override map's key list is exactly the environment map's key
list, keys absent from the environment map never occur in the result,
and an empty environment map yields the empty result whatever the
organization map is. -/
theorem computeOverrides_domain (E O : FlagMap) :
    keysOf (computeOverrides E O) = keysOf E ∧
    (∀ k, k ∉ keysOf E → jsGet (computeOverrides E O) k = none) ∧
    computeOverrides ([] : FlagMap) O = [] := by
  refine ⟨?_, ?_, rfl⟩
  · unfold computeOverrides keysOf
    rw [List.map_map]
    exact List.map_id (List.map Prod.fst E)
  · intro k hk
    unfold computeOverrides
    rw [jsGet_map_pair (keysOf E) k, if_neg hk]

theorem computeOverrides_domain_witness :
    ("beta" ∉ keysOf [("a", FlagValue.boolean true)]) ∧
    jsGet (computeOverrides [("a", FlagValue.boolean true)]
      [("beta", FlagValue.num 3)]) "beta" = none := by
  refine ⟨by decide, ?_⟩
  exact (computeOverrides_domain [("a", FlagValue.boolean true)]
    [("beta", FlagValue.num 3)]).2.1 "beta" (by decide)

/-! ### Token provider (`getAuthToken`) -/

/-- JS falsiness of a `string | undefined` value: `undefined` or `""`. -/
def strFalsy : Option String → Bool
  | none => true
  | some s => decide (s = "")

/-- The token endpoint's response as the route reads it: HTTP `ok` flag,
the body's `error` field when it is a string (`none` covers both an
absent field and a non-string one, which `typeof` rejects alike), and
the body's `access_token` field. -/
structure TokenResp where
  ok : Bool
  errorStr : Option String
  access_token : Option String
deriving DecidableEq, Repr

/-- `getAuthToken`, instrumented: the result is the returned token or the
message of the thrown error, paired with whether the token POST was
issued at all.  `post` is the network oracle (`.error` = the fetch
itself threw). -/
def getAuthTokenRun (issuerUrl m2mClientId m2mClientSecret : Option String)
    (post : Except String TokenResp) : Except String String × Bool :=
  if strFalsy issuerUrl || strFalsy m2mClientId || strFalsy m2mClientSecret then
    (.error "Missing Kinde M2M environment variables", false)
  else
    match post with
    | .error e => (.error e, true)
    | .ok resp =>
      if !resp.ok then
        (.error ("Kinde M2M: " ++ (match resp.errorStr with
          | some m => m
          | none => "Token request failed")), true)
      else
        match resp.access_token with
        | none => (.error "Kinde M2M: No access_token in response", true)
        | some t =>
          if t = "" then (.error "Kinde M2M: No access_token in response", true)
          else (.ok t, true)

/-! ### Flag fetchers -/

/-- One upstream flag entry `{value: ...}`. -/
structure KindeFlag where
  value : FlagValue
deriving DecidableEq, Repr

/-- Body of an upstream flags response: the optional `feature_flags`
object and the optional top-level `error` string. -/
structure FlagsBody where
  feature_flags : Option (List (String × KindeFlag))
  error : Option String
deriving DecidableEq, Repr

/-- An upstream flags response: `ok`, `status`, parsed JSON body. -/
structure UpstreamResp where
  ok : Bool
  status : Nat
  body : FlagsBody
deriving DecidableEq, Repr

/-- Result type of the fetchers (`FeatureFlagsResult`): a flat flag map
or `{error: string}`. -/
abbrev FFResult := Except String FlagMap

/-- JS truthiness of the optional `error` string (`data.error`). -/
def errTruthy : Option String → Bool
  | none => false
  | some s => decide (s ≠ "")

/-- Nullish coalescing `o ?? d` on an optional string. -/
def nullishD : Option String → String → String
  | none, d => d
  | some s, _ => s

/-- Flattening `feature_flags` to the flag map: keep only `value`. -/
def extractFlags (flags : List (String × KindeFlag)) : FlagMap :=
  flags.map (fun kv => (kv.1, kv.2.value))

/-- Shared tail of both fetchers: `if (!response.ok || data.error)`
return `{error: data.error ?? HTTP status}`, else flatten
`data.feature_flags ?? {}`. -/
def processFlagsResp (resp : UpstreamResp) : FFResult :=
  if !resp.ok || errTruthy resp.body.error then
    .error (nullishD resp.body.error ("HTTP " ++ toString resp.status))
  else
    .ok (extractFlags (resp.body.feature_flags.getD []))

/-- `getEnvironmentFeatureFlags`: acquire a token, issue the GET, process
the body; any exception along the way is caught and becomes
`{error: message}`.  `fetchStep` maps the bearer token to the response. -/
def getEnvironmentFeatureFlags (tokenStep : Except String String)
    (fetchStep : String → Except String UpstreamResp) : FFResult :=
  match tokenStep with
  | .error e => .error e
  | .ok token =>
    match fetchStep token with
    | .error e => .error e
    | .ok resp => processFlagsResp resp

/-- The organization flags URL, with the organization id interpolated. -/
def orgFlagsUrl (issuerUrl organizationId : String) : String :=
  issuerUrl ++ "/api/v1/organizations/" ++ organizationId ++ "/feature_flags"

/-- `getOrganizationFeatureFlags`, instrumented with the URL the GET was
issued at (`none` when the token step threw before any fetch).
`fetchStep` maps bearer token and URL to the response. -/
def getOrganizationFeatureFlagsRun (issuerUrl organizationId : String)
    (tokenStep : Except String String)
    (fetchStep : String → String → Except String UpstreamResp) :
    FFResult × Option String :=
  match tokenStep with
  | .error e => (.error e, none)
  | .ok token =>
    match fetchStep token (orgFlagsUrl issuerUrl organizationId) with
    | .error e => (.error e, some (orgFlagsUrl issuerUrl organizationId))
    | .ok resp => (processFlagsResp resp, some (orgFlagsUrl issuerUrl organizationId))

/-- `getOrganizationFeatureFlags`: just the returned result. -/
def getOrganizationFeatureFlags (issuerUrl organizationId : String)
    (tokenStep : Except String String)
    (fetchStep : String → String → Except String UpstreamResp) : FFResult :=
  (getOrganizationFeatureFlagsRun issuerUrl organizationId tokenStep fetchStep).1

/-! ### Request handler (`GET`) -/

/-- A response body: either `{error: message}` or the success payload
with exactly the four fields the route serialises. -/
inductive RespBody where
  | err (message : String)
  | success (orgId : String) (environmentFlags organizationFlags : FlagMap)
      (overrides : List (String × Bool))
deriving DecidableEq, Repr

/-- An HTTP response as produced by `NextResponse.json`. -/
structure HttpResponse where
  status : Nat
  body : RespBody
deriving DecidableEq, Repr

/-- The `orgId` field of a success body, `none` on an error body. -/
def RespBody.orgIdOf : RespBody → Option String
  | .err _ => none
  | .success orgId _ _ _ => some orgId

/-- Erasure of the TS union `FeatureFlagsResult` to the runtime object
the handler actually receives: the error variant is the plain object
`{error: message}`. -/
def toRuntime : FFResult → FlagMap
  | .error msg => [("error", FlagValue.str msg)]
  | .ok m => m

/-- The handler's failure test `"error" in flags`: property presence. -/
def hasErrorKey (m : FlagMap) : Bool :=
  (jsGet m "error").isSome

/-- The `flags.error` property rendered into a template string
(an absent property would render as `"undefined"`). -/
def errorProp (m : FlagMap) : String :=
  match jsGet m "error" with
  | some v => v.render
  | none => "undefined"

/-- JS `String.prototype.trim`: strip leading and trailing whitespace. -/
def jsTrim (s : String) : String :=
  ⟨((s.data.dropWhile Char.isWhitespace).reverse.dropWhile
      Char.isWhitespace).reverse⟩

/-- Which effectful steps a handler run performed. -/
structure Trace where
  envFetched : Bool
  orgCalledWith : Option String
  overridesComputed : Bool
deriving DecidableEq, Repr

/-- The route's `GET`, instrumented with a `Trace`.  `orgParam` is the
raw `org` query parameter (`none` when absent); `envStep` and `orgStep`
are the two fetcher calls as oracles, whose `.error` constructor is an
exception thrown from the awaited call (caught by the handler's
catch-all). -/
def GETrun (orgParam : Option String) (envStep : Except String FFResult)
    (orgStep : String → Except String FFResult) : HttpResponse × Trace :=
  let trimmed := orgParam.map jsTrim
  if strFalsy trimmed then
    (⟨400, .err "Missing required search param: org"⟩, ⟨false, none, false⟩)
  else
    let orgId := trimmed.getD ""
    match envStep with
    | .error e => (⟨500, .err e⟩, ⟨true, none, false⟩)
    | .ok envRes =>
      match orgStep orgId with
      | .error e => (⟨500, .err e⟩, ⟨true, some orgId, false⟩)
      | .ok orgRes =>
        let environmentFlags := toRuntime envRes
        let organizationFlags := toRuntime orgRes
        if hasErrorKey environmentFlags then
          (⟨502, .err ("Environment flags: " ++ errorProp environmentFlags)⟩,
           ⟨true, some orgId, false⟩)
        else if hasErrorKey organizationFlags then
          (⟨502, .err ("Organization flags: " ++ errorProp organizationFlags)⟩,
           ⟨true, some orgId, false⟩)
        else
          (⟨200, .success orgId environmentFlags organizationFlags
              (computeOverrides environmentFlags organizationFlags)⟩,
           ⟨true, some orgId, true⟩)

/-- The route's `GET`: just the HTTP response. -/
def GET (orgParam : Option String) (envStep : Except String FFResult)
    (orgStep : String → Except String FFResult) : HttpResponse :=
  (GETrun orgParam envStep orgStep).1

/-! Branch lemmas for `GETrun`, shared by the handler theorems below. -/

theorem GETrun_blank (p : Option String) (h : strFalsy (p.map jsTrim) = true)
    (envStep : Except String FFResult)
    (orgStep : String → Except String FFResult) :
    GETrun p envStep orgStep =
      (⟨400, .err "Missing required search param: org"⟩,
       ⟨false, none, false⟩) := by
  unfold GETrun
  simp [h]

theorem GETrun_envThrow (s : String) (hs : jsTrim s ≠ "") (e : String)
    (orgStep : String → Except String FFResult) :
    GETrun (some s) (.error e) orgStep =
      (⟨500, .err e⟩, ⟨true, none, false⟩) := by
  unfold GETrun
  simp [strFalsy, hs]

theorem GETrun_orgThrow (s : String) (hs : jsTrim s ≠ "")
    (envRes : FFResult) (orgStep : String → Except String FFResult)
    (e : String) (h : orgStep (jsTrim s) = .error e) :
    GETrun (some s) (.ok envRes) orgStep =
      (⟨500, .err e⟩, ⟨true, some (jsTrim s), false⟩) := by
  unfold GETrun
  simp [strFalsy, hs, h]

theorem GETrun_bothReturn (s : String) (hs : jsTrim s ≠ "")
    (envRes orgRes : FFResult) (orgStep : String → Except String FFResult)
    (h : orgStep (jsTrim s) = .ok orgRes) :
    GETrun (some s) (.ok envRes) orgStep =
      (if hasErrorKey (toRuntime envRes) then
        (⟨502, .err ("Environment flags: " ++ errorProp (toRuntime envRes))⟩,
         ⟨true, some (jsTrim s), false⟩)
      else if hasErrorKey (toRuntime orgRes) then
        (⟨502, .err ("Organization flags: " ++ errorProp (toRuntime orgRes))⟩,
         ⟨true, some (jsTrim s), false⟩)
      else
        (⟨200, .success (jsTrim s) (toRuntime envRes) (toRuntime orgRes)
            (computeOverrides (toRuntime envRes) (toRuntime orgRes))⟩,
         ⟨true, some (jsTrim s), true⟩)) := by
  unfold GETrun
  simp [strFalsy, hs, h]

/-- C4: a request whose `org` query parameter is absent or blank (empty
after trimming) gets a 400 with exactly
`{error: "Missing required search param: org"}` and triggers neither
upstream fetch; a request whose `org` is non-blank never gets a 400. -/
theorem GET_missing_org_400 (orgParam : Option String)
    (envStep : Except String FFResult)
    (orgStep : String → Except String FFResult) :
    ((orgParam = none ∨ ∃ s, orgParam = some s ∧ jsTrim s = "") →
      GETrun orgParam envStep orgStep =
        (⟨400, .err "Missing required search param: org"⟩,
         ⟨false, none, false⟩)) ∧
    (∀ s, orgParam = some s → jsTrim s ≠ "" →
      (GET orgParam envStep orgStep).status ≠ 400) := by
  constructor
  · rintro (rfl | ⟨s, rfl, hs⟩)
    · rfl
    · exact GETrun_blank (some s) (by simp [strFalsy, hs]) envStep orgStep
  · rintro s rfl hs
    unfold GET
    rcases envStep with e | envRes
    · rw [GETrun_envThrow s hs e orgStep]
      simp
    · rcases horg : orgStep (jsTrim s) with e | orgRes
      · rw [GETrun_orgThrow s hs envRes orgStep e horg]
        simp
      · rw [GETrun_bothReturn s hs envRes orgRes orgStep horg]
        by_cases h1 : hasErrorKey (toRuntime envRes)
        all_goals by_cases h2 : hasErrorKey (toRuntime orgRes)
        all_goals simp [h1, h2]

theorem GET_missing_org_400_witness :
    ((some "  " = none ∨ ∃ s, some "  " = some s ∧ jsTrim s = "") ∧
      GETrun (some "  ") (.ok (.ok []))
          (fun _ => .ok (.ok ([] : FlagMap))) =
        (⟨400, .err "Missing required search param: org"⟩,
         ⟨false, none, false⟩)) ∧
    (jsTrim " org_1 " ≠ "" ∧
      (GET (some " org_1 ") (.ok (.ok []))
        (fun _ => .ok (.ok ([] : FlagMap)))).status ≠ 400) := by
  refine ⟨⟨Or.inr ⟨"  ", rfl, by decide⟩, ?_⟩, by decide, ?_⟩
  · exact (GET_missing_org_400 (some "  ") (.ok (.ok []))
      (fun _ => .ok (.ok ([] : FlagMap)))).1 (Or.inr ⟨"  ", rfl, by decide⟩)
  · exact (GET_missing_org_400 (some " org_1 ") (.ok (.ok []))
      (fun _ => .ok (.ok ([] : FlagMap)))).2 " org_1 " rfl (by decide)

/-- C6: within a validated request, an exception thrown while awaiting
the environment fetch, or while awaiting the organization fetch, is
caught and becomes a 500 with `{error: message}`; and for every input
whatsoever the handler returns an HTTP response whose status is one of
200, 400, 500, 502 (no exception escapes). -/
theorem GET_catch_all_500 (s : String) (hs : jsTrim s ≠ "")
    (envStep : Except String FFResult)
    (orgStep : String → Except String FFResult) :
    (∀ e, envStep = .error e →
      GET (some s) envStep orgStep = ⟨500, .err e⟩) ∧
    (∀ r e, envStep = .ok r → orgStep (jsTrim s) = .error e →
      GET (some s) envStep orgStep = ⟨500, .err e⟩) ∧
    (∀ (p : Option String) (est : Except String FFResult)
        (ost : String → Except String FFResult),
      (GET p est ost).status = 200 ∨ (GET p est ost).status = 400 ∨
      (GET p est ost).status = 500 ∨ (GET p est ost).status = 502) := by
  refine ⟨?_, ?_, ?_⟩
  · rintro e rfl
    unfold GET
    rw [GETrun_envThrow s hs e orgStep]
  · rintro r e rfl horg
    unfold GET
    rw [GETrun_orgThrow s hs r orgStep e horg]
  · intro p est ost
    unfold GET
    by_cases hp : strFalsy (p.map jsTrim) = true
    · rw [GETrun_blank p hp est ost]
      simp
    · rcases p with _ | s2
      · simp [strFalsy] at hp
      · have hs2 : jsTrim s2 ≠ "" := by
          simpa [strFalsy] using hp
        rcases est with e | envRes
        · rw [GETrun_envThrow s2 hs2 e ost]
          simp
        · rcases horg : ost (jsTrim s2) with e | orgRes
          · rw [GETrun_orgThrow s2 hs2 envRes ost e horg]
            simp
          · rw [GETrun_bothReturn s2 hs2 envRes orgRes ost horg]
            by_cases h1 : hasErrorKey (toRuntime envRes)
            all_goals by_cases h2 : hasErrorKey (toRuntime orgRes)
            all_goals simp [h1, h2]

theorem GET_catch_all_500_witness :
    jsTrim "org_1" ≠ "" ∧
    GET (some "org_1") (.error "boom env")
        (fun _ => .ok (.ok ([] : FlagMap))) = ⟨500, .err "boom env"⟩ ∧
    GET (some "org_1") (.ok (.ok ([] : FlagMap)))
        (fun _ => .error "boom org") = ⟨500, .err "boom org"⟩ := by
  refine ⟨by decide, ?_, ?_⟩
  · exact (GET_catch_all_500 "org_1" (by decide) (.error "boom env")
      (fun _ => .ok (.ok ([] : FlagMap)))).1 "boom env" rfl
  · exact (GET_catch_all_500 "org_1" (by decide) (.ok (.ok ([] : FlagMap)))
      (fun _ => .error "boom org")).2.1 (.ok ([] : FlagMap)) "boom org" rfl rfl

theorem hasErrorKey_errObj (msg : String) :
    hasErrorKey [("error", FlagValue.str msg)] = true := by
  simp [hasErrorKey, jsGet]

theorem errorProp_errObj (msg : String) :
    errorProp [("error", FlagValue.str msg)] = msg := by
  simp [errorProp, jsGet, FlagValue.render]

/-- C3 counterexample: the environment fetch SUCCEEDS — a 2xx upstream
response whose `feature_flags` contains a flag literally named `error` —
and the organization fetch FAILS with message `boom`; yet the handler
answers `502 {error: "Environment flags: x"}`, not
`{error: "Organization flags: boom"}`, because its failure test
`"error" in flags` mistakes the successful map for a failure. -/
theorem GET_org_failure_counterexample :
    GET (some "org_123")
        (.ok (getEnvironmentFeatureFlags (.ok "tok")
          (fun _ => .ok ⟨true, 200,
            ⟨some [("error", ⟨FlagValue.str "x"⟩)], none⟩⟩)))
        (fun _ => .ok (.error "boom")) =
      ⟨502, .err "Environment flags: x"⟩ ∧
    GET (some "org_123")
        (.ok (getEnvironmentFeatureFlags (.ok "tok")
          (fun _ => .ok ⟨true, 200,
            ⟨some [("error", ⟨FlagValue.str "x"⟩)], none⟩⟩)))
        (fun _ => .ok (.error "boom")) ≠
      ⟨502, .err "Organization flags: boom"⟩ := by
  decide

/-- C3 (amended): for a validated request, when the environment fetch
returns a failure (and the organization fetch returns, rather than
throws), the handler answers 502 `Environment flags: {message}`; when the
environment fetch returns a flag map with no key named `"error"` and the
organization fetch returns a failure, it answers 502
`Organization flags: {message}`; in both cases `computeOverrides` is
never invoked. -/
theorem GET_fetch_failure_502 (s : String) (hs : jsTrim s ≠ "")
    (envStep : Except String FFResult)
    (orgStep : String → Except String FFResult) :
    (∀ msg r, envStep = .ok (.error msg) → orgStep (jsTrim s) = .ok r →
      GETrun (some s) envStep orgStep =
        (⟨502, .err ("Environment flags: " ++ msg)⟩,
         ⟨true, some (jsTrim s), false⟩)) ∧
    (∀ E msg, envStep = .ok (.ok E) → hasErrorKey E = false →
      orgStep (jsTrim s) = .ok (.error msg) →
      GETrun (some s) envStep orgStep =
        (⟨502, .err ("Organization flags: " ++ msg)⟩,
         ⟨true, some (jsTrim s), false⟩)) := by
  constructor
  · rintro msg r rfl horg
    rw [GETrun_bothReturn s hs (.error msg) r orgStep horg]
    simp [toRuntime, hasErrorKey_errObj, errorProp_errObj]
  · rintro E msg rfl hE horg
    rw [GETrun_bothReturn s hs (.ok E) (.error msg) orgStep horg]
    simp [toRuntime, hE, hasErrorKey_errObj, errorProp_errObj]

theorem GET_fetch_failure_502_witness :
    jsTrim "org_1" ≠ "" ∧
    GETrun (some "org_1") (.ok (.error "env down"))
        (fun _ => .ok (.ok ([] : FlagMap))) =
      (⟨502, .err "Environment flags: env down"⟩,
       ⟨true, some "org_1", false⟩) ∧
    GETrun (some "org_1") (.ok (.ok ([("a", FlagValue.num 1)] : FlagMap)))
        (fun _ => .ok (.error "org down")) =
      (⟨502, .err "Organization flags: org down"⟩,
       ⟨true, some "org_1", false⟩) := by
  refine ⟨by decide, ?_, ?_⟩
  · exact (GET_fetch_failure_502 "org_1" (by decide) (.ok (.error "env down"))
      (fun _ => .ok (.ok ([] : FlagMap)))).1 "env down" (.ok []) rfl rfl
  · exact (GET_fetch_failure_502 "org_1" (by decide)
      (.ok (.ok ([("a", FlagValue.num 1)] : FlagMap)))
      (fun _ => .ok (.error "org down"))).2
      [("a", FlagValue.num 1)] "org down" rfl (by decide) rfl

/-- C9 counterexample: both fetches SUCCEED — the environment map is the
successful flattening of a 2xx response carrying a flag named `error` —
yet the handler answers 502, not 200: the success payload is never
produced when a returned flag map contains a key `"error"`. -/
theorem GET_success_counterexample :
    GET (some "org_456")
        (.ok (getEnvironmentFeatureFlags (.ok "tok")
          (fun _ => .ok ⟨true, 200,
            ⟨some [("error", ⟨FlagValue.boolean true⟩)], none⟩⟩)))
        (fun _ => .ok (.ok ([("a", FlagValue.num 1)] : FlagMap))) =
      ⟨502, .err "Environment flags: true"⟩ ∧
    (GET (some "org_456")
        (.ok (getEnvironmentFeatureFlags (.ok "tok")
          (fun _ => .ok ⟨true, 200,
            ⟨some [("error", ⟨FlagValue.boolean true⟩)], none⟩⟩)))
        (fun _ => .ok (.ok ([("a", FlagValue.num 1)] : FlagMap)))).status
      ≠ 200 := by
  decide

/-- C9 (amended): for a validated request in which both fetches return
successful flag maps, neither of which contains a key named `"error"`,
the handler answers 200 with a body holding exactly `orgId` (the
requested, trimmed organization id), `environmentFlags`,
`organizationFlags`, and `overrides` (the computed override map). -/
theorem GET_success_200 (s : String) (hs : jsTrim s ≠ "") (E O : FlagMap)
    (hE : hasErrorKey E = false) (hO : hasErrorKey O = false)
    (envStep : Except String FFResult)
    (orgStep : String → Except String FFResult)
    (henv : envStep = .ok (.ok E)) (horg : orgStep (jsTrim s) = .ok (.ok O)) :
    GET (some s) envStep orgStep =
      ⟨200, .success (jsTrim s) E O (computeOverrides E O)⟩ := by
  subst henv
  unfold GET
  rw [GETrun_bothReturn s hs (.ok E) (.ok O) orgStep horg]
  simp [toRuntime, hE, hO]

theorem GET_success_200_witness :
    jsTrim "org_9" ≠ "" ∧
    hasErrorKey [("dark_mode", FlagValue.boolean true),
      ("beta_api", FlagValue.boolean false)] = false ∧
    hasErrorKey [("dark_mode", FlagValue.boolean false),
      ("beta_api", FlagValue.boolean false)] = false ∧
    GET (some "org_9")
        (.ok (.ok [("dark_mode", FlagValue.boolean true),
          ("beta_api", FlagValue.boolean false)]))
        (fun _ => .ok (.ok [("dark_mode", FlagValue.boolean false),
          ("beta_api", FlagValue.boolean false)])) =
      ⟨200, .success "org_9"
        [("dark_mode", FlagValue.boolean true),
          ("beta_api", FlagValue.boolean false)]
        [("dark_mode", FlagValue.boolean false),
          ("beta_api", FlagValue.boolean false)]
        [("dark_mode", true), ("beta_api", false)]⟩ := by
  refine ⟨by decide, by decide, by decide, ?_⟩
  have h := GET_success_200 "org_9" (by decide)
    [("dark_mode", FlagValue.boolean true),
      ("beta_api", FlagValue.boolean false)]
    [("dark_mode", FlagValue.boolean false),
      ("beta_api", FlagValue.boolean false)]
    (by decide) (by decide)
    (.ok (.ok [("dark_mode", FlagValue.boolean true),
      ("beta_api", FlagValue.boolean false)]))
    (fun _ => .ok (.ok [("dark_mode", FlagValue.boolean false),
      ("beta_api", FlagValue.boolean false)])) rfl rfl
  rw [h]
  decide

/-- C10: the handler uses the whitespace-trimmed `org` value: an
entirely-whitespace parameter is rejected with the 400 validation
response; otherwise the trimmed id is the string the organization fetch
is invoked with, any success payload's `orgId` equals the trimmed id,
and the organization fetcher issues its request at the URL with the
given id interpolated between `/api/v1/organizations/` and
`/feature_flags`. -/
theorem GET_trims_org (s : String) (envStep : Except String FFResult)
    (orgStep : String → Except String FFResult) (issuer tok : String)
    (fetchStep : String → String → Except String UpstreamResp) :
    (jsTrim s = "" → GETrun (some s) envStep orgStep =
      (⟨400, .err "Missing required search param: org"⟩,
       ⟨false, none, false⟩)) ∧
    (jsTrim s ≠ "" → ∀ r, envStep = .ok r →
      (GETrun (some s) envStep orgStep).2.orgCalledWith = some (jsTrim s)) ∧
    (∀ oid, (GET (some s) envStep orgStep).body.orgIdOf = some oid →
      oid = jsTrim s) ∧
    (getOrganizationFeatureFlagsRun issuer (jsTrim s) (.ok tok) fetchStep).2 =
      some (issuer ++ "/api/v1/organizations/" ++ jsTrim s ++
        "/feature_flags") := by
  refine ⟨?_, ?_, ?_, ?_⟩
  · intro hs
    exact GETrun_blank (some s) (by simp [strFalsy, hs]) envStep orgStep
  · rintro hs r rfl
    rcases horg : orgStep (jsTrim s) with e | orgRes
    · rw [GETrun_orgThrow s hs r orgStep e horg]
    · rw [GETrun_bothReturn s hs r orgRes orgStep horg]
      by_cases h1 : hasErrorKey (toRuntime r)
      all_goals by_cases h2 : hasErrorKey (toRuntime orgRes)
      all_goals simp [h1, h2]
  · intro oid hoid
    by_cases hs : jsTrim s = ""
    · rw [GET, GETrun_blank (some s) (by simp [strFalsy, hs]) envStep orgStep]
        at hoid
      simp [RespBody.orgIdOf] at hoid
    · rcases envStep with e | envRes
      · rw [GET, GETrun_envThrow s hs e orgStep] at hoid
        simp [RespBody.orgIdOf] at hoid
      · rcases horg : orgStep (jsTrim s) with e | orgRes
        · rw [GET, GETrun_orgThrow s hs envRes orgStep e horg] at hoid
          simp [RespBody.orgIdOf] at hoid
        · rw [GET, GETrun_bothReturn s hs envRes orgRes orgStep horg] at hoid
          by_cases h1 : hasErrorKey (toRuntime envRes)
          all_goals by_cases h2 : hasErrorKey (toRuntime orgRes)
          all_goals simp [h1, h2, RespBody.orgIdOf] at hoid
          exact hoid.symm
  · cases h : fetchStep tok
      (issuer ++ "/api/v1/organizations/" ++ jsTrim s ++ "/feature_flags")
    all_goals simp [getOrganizationFeatureFlagsRun, orgFlagsUrl, h]

theorem GET_trims_org_witness :
    jsTrim "  org_7 " ≠ "" ∧
    (GETrun (some "  org_7 ") (.ok (.ok ([] : FlagMap)))
      (fun o => .ok (.ok [("seen", FlagValue.str o)]))).2.orgCalledWith =
      some (jsTrim "  org_7 ") ∧
    (getOrganizationFeatureFlagsRun "https://iss" (jsTrim "  org_7 ")
      (.ok "tok") (fun _ _ => .ok ⟨true, 200, ⟨none, none⟩⟩)).2 =
      some ("https://iss" ++ "/api/v1/organizations/" ++ jsTrim "  org_7 " ++
        "/feature_flags") := by
  refine ⟨by decide, ?_, ?_⟩
  · exact (GET_trims_org "  org_7 " (.ok (.ok ([] : FlagMap)))
      (fun o => .ok (.ok [("seen", FlagValue.str o)])) "https://iss" "tok"
      (fun _ _ => .ok ⟨true, 200, ⟨none, none⟩⟩)).2.1 (by decide)
      (.ok ([] : FlagMap)) rfl
  · exact (GET_trims_org "  org_7 " (.ok (.ok ([] : FlagMap)))
      (fun o => .ok (.ok [("seen", FlagValue.str o)])) "https://iss" "tok"
      (fun _ _ => .ok ⟨true, 200, ⟨none, none⟩⟩)).2.2.2

/-- C5: when the token step succeeds and the upstream answers 2xx
(`ok`) with a body whose `feature_flags` field is absent or empty (and
whose `error` field is absent or empty, hence falsy), both fetchers
return the empty flag map, not an error result. -/
theorem fetchers_empty_feature_flags (tok : String) (resp : UpstreamResp)
    (hok : resp.ok = true) (herr : errTruthy resp.body.error = false)
    (hff : resp.body.feature_flags = none ∨
      resp.body.feature_flags = some [])
    (fetchStep : String → Except String UpstreamResp)
    (hf : fetchStep tok = .ok resp)
    (issuer oid : String)
    (fetchStep2 : String → String → Except String UpstreamResp)
    (hf2 : fetchStep2 tok (orgFlagsUrl issuer oid) = .ok resp) :
    getEnvironmentFeatureFlags (.ok tok) fetchStep = .ok ([] : FlagMap) ∧
    getOrganizationFeatureFlags issuer oid (.ok tok) fetchStep2 =
      .ok ([] : FlagMap) := by
  have hproc : processFlagsResp resp = .ok ([] : FlagMap) := by
    unfold processFlagsResp
    rw [hok, herr]
    rcases hff with h | h
    all_goals rw [h]
    all_goals rfl
  constructor
  · simp [getEnvironmentFeatureFlags, hf, hproc]
  · simp [getOrganizationFeatureFlags, getOrganizationFeatureFlagsRun,
      hf2, hproc]

theorem fetchers_empty_feature_flags_witness :
    (⟨true, 200, ⟨none, none⟩⟩ : UpstreamResp).ok = true ∧
    errTruthy (⟨true, 200, ⟨none, none⟩⟩ : UpstreamResp).body.error =
      false ∧
    getEnvironmentFeatureFlags (.ok "tok")
      (fun _ => .ok ⟨true, 200, ⟨none, none⟩⟩) = .ok ([] : FlagMap) ∧
    getOrganizationFeatureFlags "https://iss" "org_1" (.ok "tok")
      (fun _ _ => .ok ⟨true, 200, ⟨none, none⟩⟩) = .ok ([] : FlagMap) := by
  refine ⟨by decide, by decide, ?_⟩
  exact fetchers_empty_feature_flags "tok" ⟨true, 200, ⟨none, none⟩⟩
    (by decide) (by decide) (Or.inl rfl)
    (fun _ => .ok ⟨true, 200, ⟨none, none⟩⟩) rfl
    "https://iss" "org_1"
    (fun _ _ => .ok ⟨true, 200, ⟨none, none⟩⟩) rfl

/-- C7: when any of the three credentials (issuer URL, client id, client
secret) is missing or empty, `getAuthToken` fails at once with the
configuration error and the token POST is never attempted (the network
flag of the run is `false`), whatever the network would have answered. -/
theorem getAuthToken_missing_config (issuerUrl clientId clientSecret :
    Option String)
    (h : strFalsy issuerUrl = true ∨ strFalsy clientId = true ∨
      strFalsy clientSecret = true)
    (post : Except String TokenResp) :
    getAuthTokenRun issuerUrl clientId clientSecret post =
      (.error "Missing Kinde M2M environment variables", false) := by
  unfold getAuthTokenRun
  rcases h with h | h | h
  all_goals simp [h]

theorem getAuthToken_missing_config_witness :
    (strFalsy (some "https://iss") = true ∨ strFalsy (some "") = true ∨
      strFalsy (some "secret") = true) ∧
    getAuthTokenRun (some "https://iss") (some "") (some "secret")
        (.ok ⟨true, none, some "tok"⟩) =
      (.error "Missing Kinde M2M environment variables", false) := by
  refine ⟨Or.inr (Or.inl (by decide)), ?_⟩
  exact getAuthToken_missing_config (some "https://iss") (some "")
    (some "secret") (Or.inr (Or.inl (by decide)))
    (.ok ⟨true, none, some "tok"⟩)

/-- C8: when the credentials are present and the token endpoint answers
2xx (`ok`) with a body whose `access_token` is absent or empty (falsy),
`getAuthToken` fails with the protocol error
`"Kinde M2M: No access_token in response"` instead of returning an empty
or undefined token. -/
theorem getAuthToken_no_token (issuerUrl clientId clientSecret :
    Option String)
    (hi : strFalsy issuerUrl = false) (hc : strFalsy clientId = false)
    (hsec : strFalsy clientSecret = false)
    (resp : TokenResp) (hok : resp.ok = true)
    (ht : resp.access_token = none ∨ resp.access_token = some "") :
    getAuthTokenRun issuerUrl clientId clientSecret (.ok resp) =
      (.error "Kinde M2M: No access_token in response", true) := by
  rcases ht with h | h
  all_goals simp [getAuthTokenRun, hi, hc, hsec, hok, h]

theorem getAuthToken_no_token_witness :
    strFalsy (some "https://iss") = false ∧
    strFalsy (some "cid") = false ∧
    strFalsy (some "secret") = false ∧
    (⟨true, none, some ""⟩ : TokenResp).ok = true ∧
    getAuthTokenRun (some "https://iss") (some "cid") (some "secret")
        (.ok ⟨true, none, some ""⟩) =
      (.error "Kinde M2M: No access_token in response", true) := by
  refine ⟨by decide, by decide, by decide, by decide, ?_⟩
  exact getAuthToken_no_token (some "https://iss") (some "cid")
    (some "secret") (by decide) (by decide) (by decide)
    ⟨true, none, some ""⟩ (by decide) (Or.inr rfl)

end FeatureFlags
